import Mathlib

/-!
Shallow embedding of the core of `src/main.py` (MockyApp): JSON values,
Python-dict operations (insertion-ordered key update / `{**a, **b}` spread),
the example resolver and default-response generator, the path-template
converter, the per-method request handler built by `create_handler`, and the
registration loop of `register_routes`.
-/

namespace Mocky

/-- JSON-compatible values, as produced by parsing the OpenAPI document and
request bodies.  Objects are insertion-ordered key/value lists, mirroring
Python dicts. -/
inductive Json where
  | null : Json
  | bool (b : Bool) : Json
  | num (n : Int) : Json
  | str (s : String) : Json
  | arr (elems : List Json) : Json
  | obj (entries : List (String × Json)) : Json

/-- A Python dict holding JSON values: an insertion-ordered association list
(keys unique in any dict actually built by the program). -/
abbrev Dict := List (String × Json)

/-- First-match association-list lookup (Python `d.get(k)` /
`args.get(k)`). -/
def alistGet {β : Type} (kvs : List (String × β)) (k : String) : Option β :=
  match kvs with
  | [] => none
  | (k', v) :: rest => if k' = k then some v else alistGet rest k

/-- Python dict item assignment `d[k] = v`: overwrites the entry for `k` in
place (keeping its position) or appends a new entry at the end. -/
def dictSet (kvs : Dict) (k : String) (v : Json) : Dict :=
  match kvs with
  | [] => [(k, v)]
  | (k', v') :: rest => if k' = k then (k, v) :: rest else (k', v') :: dictSet rest k v

/-- Python dict spread `{**a, **b}`: start from `a` and insert each item of
`b` in order (b keys overwrite/extend a keys). -/
def dictMerge (a b : Dict) : Dict :=
  b.foldl (fun acc kv => dictSet acc kv.1 kv.2) a

/-- One entry of an operation's `parameters` list: the `name` and `in`
fields used by the handler (data model of the specification). -/
structure Parameter where
  name : String
  location : String

/-- One media-type entry under a response's `content` mapping; the core only
reads its optional `example` field. -/
structure MediaObject where
  «example» : Option Json

/-- One response definition: an optional `content` mapping from media-type
string to `MediaObject`. -/
structure ResponseDef where
  content : Option (List (String × MediaObject))

/-- One operation: its `parameters` sequence (empty when the key is absent,
as in `operation.get("parameters", [])`) and its `responses` mapping from
status-code string to `ResponseDef`. -/
structure Operation where
  parameters : List Parameter
  responses : List (String × ResponseDef)

/-- `MockyApp.generate_default_response` (src/main.py lines 174-189): a dict
`{"status": status, "message": "Default response"}` for the JSON media type,
the string `"Default response with status {status}"` otherwise. -/
def generate_default_response (status : Int) (media_type : String) : Json :=
  if media_type = "application/json" then
    Json.obj [("status", Json.num status), ("message", Json.str "Default response")]
  else
    Json.str ("Default response with status " ++ toString status)

/-- The example-selection logic of `register_routes` (src/main.py lines
278-286): use the operation's declared `responses["200"]["content"]
["application/json"]["example"]` when every link of that chain is present,
and `generate_default_response(200)` (with its default JSON media type)
otherwise. -/
def resolve_example (operation : Operation) : Json :=
  let default_resp := generate_default_response 200 "application/json"
  match alistGet operation.responses "200" with
  | none => default_resp
  | some resp200 =>
    match resp200.content with
    | none => default_resp
    | some content =>
      match alistGet content "application/json" with
      | none => default_resp
      | some media =>
        match media.«example» with
        | none => default_resp
        | some ex => ex

/-- Python `str.replace(pat, sub)` on character lists, for a non-empty
pattern `p :: ps`: scan left to right, replacing each non-overlapping
occurrence of the pattern with `sub`. -/
def replaceAll (p : Char) (ps : List Char) (sub : List Char) : List Char → List Char
  | [] => []
  | c :: rest =>
    if (p :: ps).isPrefixOf (c :: rest) then
      sub ++ replaceAll p ps sub (rest.drop ps.length)
    else
      c :: replaceAll p ps sub rest
termination_by l => l.length
decreasing_by
  · simp only [List.length_cons, List.length_drop]
    omega
  · simp only [List.length_cons]
    omega

/-- `MockyApp.convert_path` (src/main.py lines 191-204):
`openapi_path.replace("{", "<").replace("}", ">")`. -/
def convert_path (openapi_path : String) : String :=
  String.mk (replaceAll '}' [] ['>'] (replaceAll '{' [] ['<'] openapi_path.data))

/-- Python `str.upper()` (ASCII case mapping, as used on HTTP method
names). -/
def pyUpper (s : String) : String :=
  String.mk (s.data.map Char.toUpper)

/-- Outcome of evaluating Flask's `request.json` for a request: a parsed
JSON value, or a parse failure (any exception raised by the property). -/
inductive BodyJson where
  | parsed (v : Json) : BodyJson
  | parseError : BodyJson

/-- The request data the handler consumes: `request.content_type` (absent
header modelled as `none`), the outcome of `request.json`, and the query
string `request.args` as name/value pairs. -/
structure Request where
  content_type : Option String
  json : BodyJson
  args : List (String × String)

/-- An uncaught Python exception escaping the handler (the `TypeError` from
spreading a non-mapping in `{**example, ...}`). -/
inductive PyExn where
  | typeError : PyExn

/-- An HTTP response produced by the handler: status code and JSON body. -/
structure Response where
  status : Nat
  body : Json

/-- The JSON value stored for one query parameter:
`request.args.get(param_name)`, i.e. the request's same-named query value,
or `None` (JSON null) when absent. -/
def query_value (req : Request) (param_name : String) : Json :=
  match alistGet req.args param_name with
  | some v => Json.str v
  | none => Json.null

/-- One iteration of the `for param in operation.get("parameters", [])`
loop (src/main.py lines 222-225). -/
def qp_step (req : Request) (query_params : Dict) (param : Parameter) : Dict :=
  if param.location = "query" then
    dictSet query_params param.name (query_value req param.name)
  else query_params

/-- The `query_params` dict built at the top of `handler` (src/main.py lines
221-225): for each operation parameter with `in == "query"`, set
`query_params[name] = request.args.get(name)` (absent query value is
`None`, i.e. JSON null). -/
def build_query_params (operation : Operation) (req : Request) : Dict :=
  operation.parameters.foldl (qp_step req) []

/-- The request handler produced by `MockyApp.create_handler` (src/main.py
lines 219-253), with the captured `operation`, `example` and `method`.
`Except.error` is an exception escaping the handler; `Except.ok` is a
returned response (Flask's default status 200 made explicit). -/
def handler (operation : Operation) («example» : Json) (method : String)
    (req : Request) : Except PyExn Response :=
  let query_params := build_query_params operation req
  if pyUpper method = "POST" then
    if req.content_type = some "application/json" then
      match req.json with
      | BodyJson.parseError =>
        Except.ok ⟨400, Json.obj [("error", Json.str "Invalid request body")]⟩
      | BodyJson.parsed data =>
        match data, «example» with
        | Json.obj d, Json.obj e => Except.ok ⟨200, Json.obj (dictMerge e d)⟩
        | _, _ => Except.ok ⟨200, «example»⟩
    else
      Except.ok ⟨415, Json.obj [("error", Json.str "Unsupported Media Type")]⟩
  else if pyUpper method = "GET" then
    match query_params with
    | [] => Except.ok ⟨200, «example»⟩
    | _ :: _ =>
      match «example» with
      | Json.obj e =>
        Except.ok ⟨200, Json.obj (dictSet e "query_params" (Json.obj query_params))⟩
      | _ => Except.error PyExn.typeError
  else if pyUpper method = "PUT" then
    match req.json with
    | BodyJson.parseError =>
      Except.ok ⟨400, Json.obj [("error", Json.str "Invalid request body")]⟩
    | BodyJson.parsed data =>
      match data, «example» with
      | Json.obj d, Json.obj e => Except.ok ⟨200, Json.obj (dictMerge e d)⟩
      | _, _ => Except.ok ⟨200, «example»⟩
  else if pyUpper method = "DELETE" then
    Except.ok ⟨204, Json.obj [("message", Json.str "Resource deleted")]⟩
  else
    Except.ok ⟨405, Json.obj [("error", Json.str "Method not supported")]⟩

/-- One route registered with the Flask app by `add_url_rule` in
`register_routes`: the converted rule, the endpoint string
`f"{flask_path}_{method}"`, the methods list `[method.upper()]`, and the
operation/example captured by its handler. -/
structure RouteEntry where
  rule : String
  endpoint : String
  methods : List String
  operation : Operation
  «example» : Json

/-- The `paths` mapping of a parsed specification: path template to
(method, operation) pairs, in document order. -/
abbrev Paths := List (String × List (String × Operation))

/-- The route built for one (flask_path, method, operation) triple in the
inner loop of `register_routes` (src/main.py lines 276-296). -/
def mkRoute (flask_path : String) (method : String) (operation : Operation) : RouteEntry :=
  { rule := flask_path
    endpoint := flask_path ++ "_" ++ method
    methods := [pyUpper method]
    operation := operation
    «example» := resolve_example operation }

/-- `MockyApp.register_routes` (src/main.py lines 257-296): walk
`paths.items()`, convert each path, and register one route per (path,
method) pair.  The first component lists the registered routes in order;
the second is the function's Python return value — the source has no
`return` statement, so it returns `None`, modelled as `none`. -/
def register_routes (paths : Paths) : List RouteEntry × Option Nat :=
  (paths.foldl
    (fun routes pm =>
      let flask_path := convert_path pm.1
      pm.2.foldl (fun routes mo => routes ++ [mkRoute flask_path mo.1 mo.2]) routes)
    [],
   none)

/-- The total number of (path, method) pairs in a specification's paths
mapping. -/
def operation_count (paths : Paths) : Nat :=
  (paths.map (fun pm => pm.2.length)).sum

/-! Lemmas about the dict operations. -/

/-- Lookup after a Python dict assignment: the assigned key reads back the
new value, every other key is unchanged. -/
theorem alistGet_dictSet (d : Dict) (k k' : String) (v : Json) :
    alistGet (dictSet d k v) k' = if k = k' then some v else alistGet d k' := by
  induction d with
  | nil =>
    by_cases h : k = k' <;> simp [dictSet, alistGet, h]
  | cons kv rest ih =>
    obtain ⟨k0, v0⟩ := kv
    by_cases h0 : k0 = k
    · subst h0
      by_cases h1 : k0 = k' <;> simp [dictSet, alistGet, h1]
    · by_cases h1 : k0 = k'
      · subst h1
        have hk : ¬k = k0 := fun h => h0 h.symm
        simp [dictSet, alistGet, h0, hk]
      · simp [dictSet, alistGet, h0, h1, ih]

/-- Lookup misses when no entry carries the key. -/
theorem alistGet_eq_none {β : Type} (kvs : List (String × β)) (k : String)
    (h : ∀ kv ∈ kvs, kv.1 ≠ k) : alistGet kvs k = none := by
  induction kvs with
  | nil => rfl
  | cons kv rest ih =>
    have h1 : kv.1 ≠ k := h kv (List.mem_cons_self kv rest)
    obtain ⟨k0, v0⟩ := kv
    simp only [alistGet]
    rw [if_neg h1]
    exact ih (fun kv hkv => h kv (List.mem_cons_of_mem _ hkv))

/-- Unfolding one step of the dict spread. -/
theorem dictMerge_cons (a : Dict) (k : String) (v : Json) (b : Dict) :
    dictMerge a ((k, v) :: b) = dictMerge (dictSet a k v) b := rfl

/-- Lookup in `{**e, **d}` for a duplicate-free `d`: keys of `d` take
precedence, all other keys fall back to `e`. -/
theorem alistGet_dictMerge (e d : Dict) (k : String)
    (hd : (d.map Prod.fst).Nodup) :
    alistGet (dictMerge e d) k =
      match alistGet d k with
      | some v => some v
      | none => alistGet e k := by
  induction d generalizing e with
  | nil => simp [dictMerge, alistGet]
  | cons kv rest ih =>
    obtain ⟨k0, v0⟩ := kv
    simp only [List.map_cons, List.nodup_cons] at hd
    obtain ⟨hk0, hrest⟩ := hd
    rw [dictMerge_cons, ih (dictSet e k0 v0) hrest]
    by_cases h : k0 = k
    · subst h
      have hnone : alistGet rest k0 = none := by
        apply alistGet_eq_none
        intro kv hkv hkk
        exact hk0 (hkk ▸ List.mem_map_of_mem Prod.fst hkv)
      simp [alistGet, hnone, alistGet_dictSet]
    · simp only [alistGet, if_neg h]
      cases alistGet rest k with
      | none => simp [alistGet_dictSet, h]
      | some v => simp

/-! Lemmas about the query-parameter loop. -/

/-- The loop leaves keys untouched that no query parameter in `l` names. -/
theorem foldl_qp_step_no_match (req : Request) (l : List Parameter) (acc : Dict)
    (k : String) (h : ∀ p ∈ l, ¬(p.location = "query" ∧ p.name = k)) :
    alistGet (l.foldl (qp_step req) acc) k = alistGet acc k := by
  induction l generalizing acc with
  | nil => rfl
  | cons p rest ih =>
    have hp := h p (List.mem_cons_self p rest)
    have hrest : ∀ q ∈ rest, ¬(q.location = "query" ∧ q.name = k) :=
      fun q hq => h q (List.mem_cons_of_mem _ hq)
    simp only [List.foldl_cons]
    rw [ih _ hrest]
    unfold qp_step
    by_cases hloc : p.location = "query"
    · have hname : ¬p.name = k := fun hn => hp ⟨hloc, hn⟩
      rw [if_pos hloc, alistGet_dictSet, if_neg hname]
    · rw [if_neg hloc]

/-- Every declared query parameter ends up in the loop's dict with the
request's same-named query value. -/
theorem foldl_qp_step_match (req : Request) (l : List Parameter) (acc : Dict)
    (k : String) (h : ∃ p ∈ l, p.location = "query" ∧ p.name = k) :
    alistGet (l.foldl (qp_step req) acc) k = some (query_value req k) := by
  induction l generalizing acc with
  | nil => exact absurd h (by simp)
  | cons p rest ih =>
    simp only [List.foldl_cons]
    by_cases hrest : ∃ q ∈ rest, q.location = "query" ∧ q.name = k
    · exact ih _ hrest
    · obtain ⟨q, hq, hqprop⟩ := h
      rcases List.mem_cons.mp hq with hq | hq
      · subst hq
        obtain ⟨hloc, hname⟩ := hqprop
        rw [foldl_qp_step_no_match req rest _ k
          (fun q hq hqp => hrest ⟨q, hq, hqp⟩)]
        unfold qp_step
        rw [if_pos hloc, alistGet_dictSet, hname, if_pos rfl]
      · exact absurd ⟨q, hq, hqprop⟩ hrest

/-- If no parameter has location "query", the loop returns its accumulator
unchanged. -/
theorem foldl_qp_step_no_query (req : Request) (l : List Parameter) (acc : Dict)
    (h : ∀ p ∈ l, p.location ≠ "query") :
    l.foldl (qp_step req) acc = acc := by
  induction l generalizing acc with
  | nil => rfl
  | cons p rest ih =>
    simp only [List.foldl_cons]
    rw [qp_step, if_neg (h p (List.mem_cons_self p rest))]
    exact ih _ (fun q hq => h q (List.mem_cons_of_mem _ hq))

/-- Characterization of the built `query_params` dict at a declared query
parameter's name. -/
theorem build_query_params_get (op : Operation) (req : Request) (p : Parameter)
    (hp : p ∈ op.parameters) (hq : p.location = "query") :
    alistGet (build_query_params op req) p.name = some (query_value req p.name) :=
  foldl_qp_step_match req op.parameters [] p.name ⟨p, hp, hq, rfl⟩

/-- The built `query_params` dict is empty exactly when the operation
declares no query parameter. -/
theorem build_query_params_eq_nil_iff (op : Operation) (req : Request) :
    build_query_params op req = [] ↔ ∀ p ∈ op.parameters, p.location ≠ "query" := by
  constructor
  · intro hnil p hp hq
    have := build_query_params_get op req p hp hq
    rw [hnil] at this
    exact Option.noConfusion this
  · intro h
    exact foldl_qp_step_no_query req op.parameters [] h

/-! Lemmas about path conversion. -/

/-- A single-character `str.replace` is the character-wise substitution. -/
theorem replaceAll_single (p q : Char) (l : List Char) :
    replaceAll p [] [q] l = l.map (fun c => if c = p then q else c) := by
  induction l with
  | nil => simp [replaceAll]
  | cons c rest ih =>
    rw [replaceAll]
    by_cases h : c = p
    · subst h
      simp [List.isPrefixOf, ih]
    · have h' : ¬(c == p) = true := by simpa using fun hh => h hh
      have hpc : ¬(p == c) = true := by
        simpa using fun hh => h hh.symm
      simp [List.isPrefixOf, hpc, h, ih]

/-- The character substitution performed by `convert_path`. -/
def brace_step (c : Char) : Char :=
  if c = '{' then '<' else if c = '}' then '>' else c

/-- `convert_path` acts character-wise via `brace_step`. -/
theorem convert_path_data (s : String) :
    (convert_path s).data = s.data.map brace_step := by
  show replaceAll '}' [] ['>'] (replaceAll '{' [] ['<'] s.data) = _
  rw [replaceAll_single, replaceAll_single, List.map_map]
  apply List.map_congr_left
  intro c _
  simp only [Function.comp_apply, brace_step]
  by_cases h1 : c = '{'
  · subst h1
    decide
  · by_cases h2 : c = '}'
    · subst h2
      decide
    · simp [h1, h2]

/-! Example-resolution policy, stated from the spec's wording. -/

/-- Modelled from the spec's wording of the resolution policy: the example
declared under the operation's "200" response → "content" →
"application/json" → "example" chain, when the whole chain is present. -/
def spec_declared_example (operation : Operation) : Option Json :=
  match alistGet operation.responses "200" with
  | none => none
  | some resp200 =>
    match resp200.content with
    | none => none
    | some content =>
      match alistGet content "application/json" with
      | none => none
      | some media => media.«example»

/-- The source's example selection equals: declared example if present,
synthesized JSON default otherwise. -/
theorem resolve_example_eq (operation : Operation) :
    resolve_example operation =
      (spec_declared_example operation).getD
        (generate_default_response 200 "application/json") := by
  unfold resolve_example spec_declared_example
  rcases h1 : alistGet operation.responses "200" with _ | resp200
  · simp
  · rcases h2 : resp200.content with _ | content
    · simp [h2]
    · rcases h3 : alistGet content "application/json" with _ | media
      · simp [h2, h3]
      · rcases h4 : media.«example» with _ | ex
        · simp [h2, h3, h4]
        · simp [h2, h3, h4]

/-! Concrete demonstration values used by witnesses. -/

/-- An operation with no parameters and no responses. -/
def demoOpBare : Operation := ⟨[], []⟩

/-- An operation declaring a 200/application-json example. -/
def demoOpDeclared : Operation :=
  ⟨[], [("200", ⟨some [("application/json", ⟨some (Json.str "demo")⟩)]⟩)]⟩

/-- An operation declaring one query parameter `param1`. -/
def demoQueryOp : Operation := ⟨[⟨"param1", "query"⟩], []⟩

/-- A GET-style request carrying `?param1=value1`. -/
def demoGetReq : Request := ⟨none, BodyJson.parseError, [("param1", "value1")]⟩

/-! Claim theorems. -/

/-- C4: example resolution returns the declared 200/application-json
example verbatim when present, and otherwise the synthesized default:
the dict `{"status": 200, "message": "Default response"}` for the JSON
media type and the string `"Default response with status 200"` for any
other media type. -/
theorem claim4_example_resolution (operation : Operation) :
    (∀ ex, spec_declared_example operation = some ex →
      resolve_example operation = ex) ∧
    (spec_declared_example operation = none →
      resolve_example operation =
        Json.obj [("status", Json.num 200), ("message", Json.str "Default response")]) ∧
    (∀ media_type, media_type ≠ "application/json" →
      generate_default_response 200 media_type =
        Json.str "Default response with status 200") := by
  refine ⟨?_, ?_, ?_⟩
  · intro ex hex
    rw [resolve_example_eq, hex]
    rfl
  · intro hnone
    rw [resolve_example_eq, hnone]
    rfl
  · intro media_type hmt
    unfold generate_default_response
    rw [if_neg hmt]
    rfl

/-- Witness for C4 at concrete operations with and without a declared
example, and at a non-JSON media type. -/
theorem claim4_example_resolution_witness :
    resolve_example demoOpDeclared = Json.str "demo" ∧
    resolve_example demoOpBare =
      Json.obj [("status", Json.num 200), ("message", Json.str "Default response")] ∧
    generate_default_response 200 "text/plain" =
      Json.str "Default response with status 200" :=
  ⟨(claim4_example_resolution demoOpDeclared).1 (Json.str "demo") rfl,
   (claim4_example_resolution demoOpBare).2.1 rfl,
   (claim4_example_resolution demoOpBare).2.2 "text/plain" (by decide)⟩

/-- C5: path conversion replaces every `{` with `<` and every `}` with `>`
character-wise, leaving all other characters unchanged and preserving
order; in particular `/users/{id}/posts/{pid}` maps to
`/users/<id>/posts/<pid>`. -/
theorem claim5_convert_path :
    (∀ s : String, (convert_path s).data = s.data.map brace_step) ∧
    convert_path "/users/{id}/posts/{pid}" = "/users/<id>/posts/<pid>" := by
  refine ⟨convert_path_data, ?_⟩
  apply String.ext
  rw [convert_path_data]
  decide

/-- C7: a handler built with method DELETE responds 204 with body
`{"message": "Resource deleted"}` on every request. -/
theorem claim7_delete (operation : Operation) («example» : Json)
    (method : String) (req : Request) (hm : pyUpper method = "DELETE") :
    handler operation «example» method req =
      Except.ok ⟨204, Json.obj [("message", Json.str "Resource deleted")]⟩ := by
  unfold handler
  rw [hm]
  rfl

/-- Witness for C7 at method "delete" and an arbitrary concrete request. -/
theorem claim7_delete_witness :
    handler demoQueryOp (Json.str "x") "delete" demoGetReq =
      Except.ok ⟨204, Json.obj [("message", Json.str "Resource deleted")]⟩ :=
  claim7_delete demoQueryOp (Json.str "x") "delete" demoGetReq rfl

/-- C8: a handler built with a method other than GET, POST, PUT or DELETE
(after upper-casing, i.e. compared case-insensitively) responds 405 with
body `{"error": "Method not supported"}` on every request. -/
theorem claim8_method_not_supported (operation : Operation) («example» : Json)
    (method : String) (req : Request)
    (hm : pyUpper method ≠ "GET" ∧ pyUpper method ≠ "POST" ∧
          pyUpper method ≠ "PUT" ∧ pyUpper method ≠ "DELETE") :
    handler operation «example» method req =
      Except.ok ⟨405, Json.obj [("error", Json.str "Method not supported")]⟩ := by
  obtain ⟨h1, h2, h3, h4⟩ := hm
  simp only [handler]
  rw [if_neg h2, if_neg h1, if_neg h3, if_neg h4]

/-- Witness for C8 at method "patch". -/
theorem claim8_method_not_supported_witness :
    handler demoQueryOp (Json.str "x") "patch" demoGetReq =
      Except.ok ⟨405, Json.obj [("error", Json.str "Method not supported")]⟩ :=
  claim8_method_not_supported demoQueryOp (Json.str "x") "patch" demoGetReq
    ⟨by decide, by decide, by decide, by decide⟩

/-- A POST-style request: JSON content type, body `{"key": "value"}`. -/
def demoPostReq : Request :=
  ⟨some "application/json", BodyJson.parsed (Json.obj [("key", Json.str "value")]), []⟩

/-- A request with a non-JSON content type (body does not parse). -/
def demoTextReq : Request := ⟨some "text/plain", BodyJson.parseError, []⟩

/-- A request with JSON content type whose body fails to parse. -/
def demoBadJsonReq : Request := ⟨some "application/json", BodyJson.parseError, []⟩

/-- C1 (counterexample): a GET handler whose operation declares a query
parameter raises a TypeError instead of responding 200 when the captured
example is not an object (here: an empty array). -/
theorem claim1_get_counterexample :
    handler demoQueryOp (Json.arr []) "get" demoGetReq = Except.error PyExn.typeError ∧
    demoQueryOp.parameters = [⟨"param1", "query"⟩] :=
  ⟨rfl, rfl⟩

/-- C1 (amended): for a GET handler, when the operation declares at least
one query parameter and the captured example is a key-value object, the
response is 200 with the example extended by a `query_params` key mapping
each declared query-parameter name to the request's same-named query value
(null when absent), preserving the example's other top-level keys and
overwriting an existing `query_params` key; with no declared query
parameters the response is 200 with the example unchanged. -/
theorem claim1_get_amended (operation : Operation) (method : String)
    (req : Request) (hm : pyUpper method = "GET") :
    ((∃ p ∈ operation.parameters, p.location = "query") →
      (∀ p ∈ operation.parameters, p.location = "query" →
        alistGet (build_query_params operation req) p.name =
          some (query_value req p.name)) ∧
      (∀ e, handler operation (Json.obj e) method req =
        Except.ok ⟨200, Json.obj
          (dictSet e "query_params" (Json.obj (build_query_params operation req)))⟩)) ∧
    ((∀ p ∈ operation.parameters, p.location ≠ "query") →
      ∀ ex, handler operation ex method req = Except.ok ⟨200, ex⟩) ∧
    (∀ e v k, k ≠ "query_params" →
      alistGet (dictSet e "query_params" v) k = alistGet e k) ∧
    (∀ e v, alistGet (dictSet e "query_params" v) "query_params" = some v) := by
  refine ⟨?_, ?_, ?_, ?_⟩
  · intro hq
    refine ⟨fun p hp hloc => build_query_params_get operation req p hp hloc, ?_⟩
    intro e
    have hne : build_query_params operation req ≠ [] := by
      intro hnil
      obtain ⟨p, hp, hloc⟩ := hq
      exact ((build_query_params_eq_nil_iff operation req).mp hnil) p hp hloc
    rcases hbq : build_query_params operation req with _ | ⟨q, qs⟩
    · exact absurd hbq hne
    · unfold handler
      rw [hm, hbq]
      rfl
  · intro hnone ex
    have hbq : build_query_params operation req = [] :=
      (build_query_params_eq_nil_iff operation req).mpr hnone
    unfold handler
    rw [hm, hbq]
    rfl
  · intro e v k hk
    rw [alistGet_dictSet, if_neg (fun h => hk h.symm)]
  · intro e v
    rw [alistGet_dictSet, if_pos rfl]

/-- Witness for C1 (amended) at a declared query parameter with
`?param1=value1`, and at an operation with no query parameters. -/
theorem claim1_get_amended_witness :
    handler demoQueryOp (Json.obj [("message", Json.str "test")]) "get" demoGetReq =
      Except.ok ⟨200, Json.obj [("message", Json.str "test"),
        ("query_params", Json.obj [("param1", Json.str "value1")])]⟩ ∧
    handler demoOpBare (Json.obj [("message", Json.str "test")]) "get" demoGetReq =
      Except.ok ⟨200, Json.obj [("message", Json.str "test")]⟩ :=
  ⟨(((claim1_get_amended demoQueryOp "get" demoGetReq rfl).1
      ⟨⟨"param1", "query"⟩, List.mem_cons_self _ _, rfl⟩).2) [("message", Json.str "test")],
   (claim1_get_amended demoOpBare "get" demoGetReq rfl).2.1
      (by intro p hp; exact absurd hp (List.not_mem_nil p))
      (Json.obj [("message", Json.str "test")])⟩

/-- C10: for a GET handler over an operation declaring a query parameter,
a non-object example makes the merge expression raise (the handler's
outcome is an escaping TypeError, not a 200 response), and a 200 outcome
is only reachable when the example is an object. -/
theorem claim10_get_nonobject (operation : Operation) (method : String)
    (req : Request) (hm : pyUpper method = "GET")
    (hq : ∃ p ∈ operation.parameters, p.location = "query") :
    (∀ ex, (∀ kvs, ex ≠ Json.obj kvs) →
      handler operation ex method req = Except.error PyExn.typeError) ∧
    (∀ ex r, handler operation ex method req = Except.ok r →
      ∃ kvs, ex = Json.obj kvs) := by
  have hne : build_query_params operation req ≠ [] := by
    intro hnil
    obtain ⟨p, hp, hloc⟩ := hq
    exact ((build_query_params_eq_nil_iff operation req).mp hnil) p hp hloc
  rcases hbq : build_query_params operation req with _ | ⟨q, qs⟩
  · exact absurd hbq hne
  have herr : ∀ ex, (∀ kvs, ex ≠ Json.obj kvs) →
      handler operation ex method req = Except.error PyExn.typeError := by
    intro ex hex
    cases ex <;>
      first
        | exact absurd rfl (hex _)
        | (unfold handler; rw [hm, hbq]; rfl)
  refine ⟨herr, ?_⟩
  intro ex r hr
  cases ex <;>
    first
      | exact ⟨_, rfl⟩
      | (rw [herr _ (fun _ h => Json.noConfusion h)] at hr
         exact Except.noConfusion hr)

/-- Witness for C10 at a scalar example. -/
theorem claim10_get_nonobject_witness :
    handler demoQueryOp (Json.num 5) "get" demoGetReq = Except.error PyExn.typeError :=
  (claim10_get_nonobject demoQueryOp "get" demoGetReq rfl
      ⟨⟨"param1", "query"⟩, List.mem_cons_self _ _, rfl⟩).1 (Json.num 5)
    (fun _ h => Json.noConfusion h)

/-- C2: a POST handler with content type exactly "application/json" answers
400 on a parse failure, 200 with the body-over-example shallow merge when
body and example are both objects, and 200 with the example unchanged when
either is not an object; with any other content type it answers 415
independently of the body.  The final conjunct records the merge's key
precedence: body keys win, other keys fall back to the example. -/
theorem claim2_post (operation : Operation) («example» : Json) (method : String)
    (req : Request) (hm : pyUpper method = "POST") :
    (req.content_type = some "application/json" →
      (req.json = BodyJson.parseError →
        handler operation «example» method req =
          Except.ok ⟨400, Json.obj [("error", Json.str "Invalid request body")]⟩) ∧
      (∀ d e, req.json = BodyJson.parsed (Json.obj d) → «example» = Json.obj e →
        handler operation «example» method req =
          Except.ok ⟨200, Json.obj (dictMerge e d)⟩) ∧
      (∀ data, req.json = BodyJson.parsed data →
        ((∀ d, data ≠ Json.obj d) ∨ (∀ e, «example» ≠ Json.obj e)) →
        handler operation «example» method req = Except.ok ⟨200, «example»⟩)) ∧
    (req.content_type ≠ some "application/json" →
      ∀ body args,
        handler operation «example» method ⟨req.content_type, body, args⟩ =
          Except.ok ⟨415, Json.obj [("error", Json.str "Unsupported Media Type")]⟩) ∧
    (∀ e d k, (d.map Prod.fst).Nodup →
      alistGet (dictMerge e d) k =
        match alistGet d k with
        | some v => some v
        | none => alistGet e k) := by
  refine ⟨fun hct => ⟨?_, ?_, ?_⟩, ?_, fun e d k hd => alistGet_dictMerge e d k hd⟩
  · intro hj
    unfold handler
    rw [hm, if_pos hct, hj]
    rfl
  · intro d e hd hex
    unfold handler
    rw [hm, if_pos hct, hd, hex]
    rfl
  · intro data hd hne
    unfold handler
    rw [hm, if_pos hct, hd]
    rcases hne with hne | hne
    · cases data <;> first | exact absurd rfl (hne _) | rfl
    · cases data <;> cases «example» <;> first | exact absurd rfl (hne _) | rfl
  · intro hct body args
    simp only [handler]
    rw [hm, if_neg hct]
    rfl

/-- Witness for C2: merge, 415 and 400 outcomes at concrete requests. -/
theorem claim2_post_witness :
    handler demoOpBare (Json.obj [("message", Json.str "test")]) "post" demoPostReq =
      Except.ok ⟨200, Json.obj [("message", Json.str "test"), ("key", Json.str "value")]⟩ ∧
    handler demoOpBare (Json.obj [("message", Json.str "test")]) "post" demoTextReq =
      Except.ok ⟨415, Json.obj [("error", Json.str "Unsupported Media Type")]⟩ ∧
    handler demoOpBare (Json.obj [("message", Json.str "test")]) "post" demoBadJsonReq =
      Except.ok ⟨400, Json.obj [("error", Json.str "Invalid request body")]⟩ :=
  ⟨((claim2_post demoOpBare (Json.obj [("message", Json.str "test")]) "post"
        demoPostReq rfl).1 rfl).2.1
      [("key", Json.str "value")] [("message", Json.str "test")] rfl rfl,
   (claim2_post demoOpBare (Json.obj [("message", Json.str "test")]) "post"
        demoTextReq rfl).2.1 (by decide) demoTextReq.json demoTextReq.args,
   ((claim2_post demoOpBare (Json.obj [("message", Json.str "test")]) "post"
        demoBadJsonReq rfl).1 rfl).1 rfl⟩

/-- C3: a PUT handler attempts the body parse regardless of the declared
content type (last conjunct: the outcome does not depend on the content
type at all); a parse failure answers 400, an object body over an object
example answers 200 with the shallow merge, and any other combination
answers 200 with the example unchanged. -/
theorem claim3_put (operation : Operation) («example» : Json) (method : String)
    (req : Request) (hm : pyUpper method = "PUT") :
    (req.json = BodyJson.parseError →
      handler operation «example» method req =
        Except.ok ⟨400, Json.obj [("error", Json.str "Invalid request body")]⟩) ∧
    (∀ d e, req.json = BodyJson.parsed (Json.obj d) → «example» = Json.obj e →
      handler operation «example» method req =
        Except.ok ⟨200, Json.obj (dictMerge e d)⟩) ∧
    (∀ data, req.json = BodyJson.parsed data →
      ((∀ d, data ≠ Json.obj d) ∨ (∀ e, «example» ≠ Json.obj e)) →
      handler operation «example» method req = Except.ok ⟨200, «example»⟩) ∧
    (∀ ct ct', handler operation «example» method ⟨ct, req.json, req.args⟩ =
      handler operation «example» method ⟨ct', req.json, req.args⟩) := by
  refine ⟨?_, ?_, ?_, ?_⟩
  · intro hj
    unfold handler
    rw [hm, hj]
    rfl
  · intro d e hd hex
    unfold handler
    rw [hm, hd, hex]
    rfl
  · intro data hd hne
    unfold handler
    rw [hm, hd]
    rcases hne with hne | hne
    · cases data <;> first | exact absurd rfl (hne _) | rfl
    · cases data <;> cases «example» <;> first | exact absurd rfl (hne _) | rfl
  · intro ct ct'
    unfold handler
    rw [hm]
    rfl

/-- Witness for C3: merge on a JSON body, 400 on an unparsable body (with
a non-JSON content type, the parse is still attempted). -/
theorem claim3_put_witness :
    handler demoOpBare (Json.obj [("message", Json.str "test")]) "put" demoPostReq =
      Except.ok ⟨200, Json.obj [("message", Json.str "test"), ("key", Json.str "value")]⟩ ∧
    handler demoOpBare (Json.obj [("message", Json.str "test")]) "put" demoTextReq =
      Except.ok ⟨400, Json.obj [("error", Json.str "Invalid request body")]⟩ :=
  ⟨(claim3_put demoOpBare (Json.obj [("message", Json.str "test")]) "put"
        demoPostReq rfl).2.1
      [("key", Json.str "value")] [("message", Json.str "test")] rfl rfl,
   (claim3_put demoOpBare (Json.obj [("message", Json.str "test")]) "put"
        demoTextReq rfl).1 rfl⟩

/-! Registration count (C6). -/

/-- Folding `acc ++ [g x]` over a list appends the mapped list. -/
theorem foldl_append_singleton {α β : Type} (g : α → β) (l : List α)
    (acc : List β) :
    l.foldl (fun a x => a ++ [g x]) acc = acc ++ l.map g := by
  induction l generalizing acc with
  | nil => simp
  | cons x rest ih => simp [ih]

/-- Length of the route list built by the registration loop, for any
starting accumulator. -/
theorem register_routes_foldl_length (paths : Paths) (acc : List RouteEntry) :
    (paths.foldl
      (fun routes pm =>
        pm.2.foldl (fun routes mo => routes ++ [mkRoute (convert_path pm.1) mo.1 mo.2])
          routes)
      acc).length = acc.length + operation_count paths := by
  induction paths generalizing acc with
  | nil => simp [operation_count]
  | cons pm rest ih =>
    simp only [List.foldl_cons]
    rw [ih, foldl_append_singleton]
    simp only [operation_count, List.map_cons, List.sum_cons, List.length_append,
      List.length_map]
    omega

/-- A one-path, two-method specification used to exhibit C6's failure. -/
def demoPaths : Paths := [("/items", [("get", demoOpBare), ("post", demoOpBare)])]

/-- C6 (counterexample): `register_routes` does not return the operation
count — the source function has no return statement, so its value is
`None` even for a specification with two operations. -/
theorem claim6_register_counterexample :
    (register_routes demoPaths).2 ≠ some (operation_count demoPaths) :=
  fun h => Option.noConfusion h

/-- C6 (amended): on every specification the registration loop registers
exactly one route per (path, method) pair — the number of registered routes
equals the total count of such pairs — while the function's return value is
`None`, not that count. -/
theorem claim6_register_amended (paths : Paths) :
    (register_routes paths).1.length = operation_count paths ∧
    (register_routes paths).2 = none := by
  constructor
  · show (paths.foldl
      (fun routes pm =>
        let flask_path := convert_path pm.1
        pm.2.foldl (fun routes mo => routes ++ [mkRoute flask_path mo.1 mo.2]) routes)
      []).length = operation_count paths
    rw [show (paths.foldl
      (fun routes pm =>
        let flask_path := convert_path pm.1
        pm.2.foldl (fun routes mo => routes ++ [mkRoute flask_path mo.1 mo.2]) routes)
      []) = (paths.foldl
      (fun routes pm =>
        pm.2.foldl (fun routes mo => routes ++ [mkRoute (convert_path pm.1) mo.1 mo.2])
          routes)
      []) from rfl]
    rw [register_routes_foldl_length]
    simp
  · rfl

/-! Heap model for the frame property (C9).

The captured example lives in a heap of JSON objects addressed by `Nat`;
every dict display the handler evaluates allocates a fresh address, and the
example address is only ever read. -/

/-- First-match lookup in a heap's address/value list. -/
def heapGet (mem : List (Nat × Json)) (a : Nat) : Option Json :=
  match mem with
  | [] => none
  | (a', v) :: rest => if a' = a then some v else heapGet rest a

/-- A heap of JSON values: allocated cells plus the next fresh address. -/
structure Heap where
  mem : List (Nat × Json)
  next : Nat

/-- Read the value stored at an address. -/
def Heap.get (h : Heap) (a : Nat) : Option Json :=
  heapGet h.mem a

/-- Allocate a fresh cell (at address `h.next`) holding `v`. -/
def Heap.allocHeap (h : Heap) (v : Json) : Heap :=
  ⟨h.mem ++ [(h.next, v)], h.next + 1⟩

/-- Well-formedness: every allocated address is below `next`. -/
def Heap.WF (h : Heap) : Prop :=
  ∀ p ∈ h.mem, p.1 < h.next

/-- Lookup hits in the left part of an appended heap stay hits. -/
theorem heapGet_append_of_some (mem₁ mem₂ : List (Nat × Json)) (a : Nat)
    (v : Json) (h : heapGet mem₁ a = some v) :
    heapGet (mem₁ ++ mem₂) a = some v := by
  induction mem₁ with
  | nil => exact Option.noConfusion h
  | cons p rest ih =>
    obtain ⟨a', v'⟩ := p
    simp only [heapGet, List.cons_append] at h ⊢
    by_cases ha : a' = a
    · rwa [if_pos ha] at h ⊢
    · rw [if_neg ha] at h ⊢
      exact ih h

/-- Allocation preserves every existing cell. -/
theorem Heap.get_allocHeap (h : Heap) (w : Json) (a : Nat) (v : Json)
    (hget : h.get a = some v) : (h.allocHeap w).get a = some v :=
  heapGet_append_of_some h.mem [(h.next, w)] a v hget

/-- Allocation preserves well-formedness. -/
theorem Heap.allocHeap_WF (h : Heap) (w : Json) (hwf : h.WF) :
    (h.allocHeap w).WF := by
  intro p hp
  rcases List.mem_append.mp hp with hp | hp
  · exact Nat.lt_succ_of_lt (hwf p hp)
  · rcases List.mem_singleton.mp hp with rfl
    exact Nat.lt_succ_self _

/-- Heap-level rendering of the handler of `create_handler` (src/main.py
lines 219-253): the captured example is a heap cell at `aExample`; every
dict display (`{...}` literal or `{**..., ...}` spread) the handler
evaluates allocates a fresh object; the local `query_params` dict is a
fresh object mutated only locally, modelled by its final value; the
example cell is only read (`Heap.get`), never written.  Returns the
handler outcome (status code and body address) and the resulting heap. -/
def handler_heap (operation : Operation) (aExample : Nat) (method : String)
    (req : Request) (h : Heap) : (Except PyExn (Nat × Nat)) × Heap :=
  let query_params := build_query_params operation req
  if pyUpper method = "POST" then
    if req.content_type = some "application/json" then
      match req.json with
      | BodyJson.parseError =>
        (Except.ok (400, h.next),
         h.allocHeap (Json.obj [("error", Json.str "Invalid request body")]))
      | BodyJson.parsed data =>
        match data, h.get aExample with
        | Json.obj d, some (Json.obj e) =>
          (Except.ok (200, h.next), h.allocHeap (Json.obj (dictMerge e d)))
        | _, _ => (Except.ok (200, aExample), h)
    else
      (Except.ok (415, h.next),
       h.allocHeap (Json.obj [("error", Json.str "Unsupported Media Type")]))
  else if pyUpper method = "GET" then
    match query_params with
    | [] => (Except.ok (200, aExample), h)
    | _ :: _ =>
      match h.get aExample with
      | some (Json.obj e) =>
        (Except.ok (200, h.next),
         h.allocHeap (Json.obj (dictSet e "query_params" (Json.obj query_params))))
      | _ => (Except.error PyExn.typeError, h)
  else if pyUpper method = "PUT" then
    match req.json with
    | BodyJson.parseError =>
      (Except.ok (400, h.next),
       h.allocHeap (Json.obj [("error", Json.str "Invalid request body")]))
    | BodyJson.parsed data =>
      match data, h.get aExample with
      | Json.obj d, some (Json.obj e) =>
        (Except.ok (200, h.next), h.allocHeap (Json.obj (dictMerge e d)))
      | _, _ => (Except.ok (200, aExample), h)
  else if pyUpper method = "DELETE" then
    (Except.ok (204, h.next),
     h.allocHeap (Json.obj [("message", Json.str "Resource deleted")]))
  else
    (Except.ok (405, h.next),
     h.allocHeap (Json.obj [("error", Json.str "Method not supported")]))

/-- Serve a sequence of requests, threading the heap. -/
def serve (operation : Operation) (aExample : Nat) (method : String)
    (reqs : List Request) (h : Heap) : Heap :=
  reqs.foldl (fun h req => (handler_heap operation aExample method req h).2) h

/-- One handler invocation preserves every pre-existing heap cell and heap
well-formedness. -/
theorem handler_heap_frame (operation : Operation) (aExample : Nat)
    (method : String) (req : Request) (h : Heap) (hwf : h.WF) :
    (∀ a v, h.get a = some v →
      ((handler_heap operation aExample method req h).2).get a = some v) ∧
    ((handler_heap operation aExample method req h).2).WF := by
  have halloc : ∀ w : Json,
      (∀ a v, h.get a = some v → (h.allocHeap w).get a = some v) ∧
      (h.allocHeap w).WF :=
    fun w => ⟨fun a v hv => Heap.get_allocHeap h w a v hv, Heap.allocHeap_WF h w hwf⟩
  have hid : (∀ a v, h.get a = some v → h.get a = some v) ∧ h.WF :=
    ⟨fun _ _ hv => hv, hwf⟩
  simp only [handler_heap]
  repeat' split
  all_goals first
    | exact halloc _
    | exact hid

/-- Serving any request sequence preserves every pre-existing heap cell and
heap well-formedness. -/
theorem serve_frame (operation : Operation) (aExample : Nat) (method : String)
    (reqs : List Request) (h : Heap) (hwf : h.WF) :
    (∀ a v, h.get a = some v →
      (serve operation aExample method reqs h).get a = some v) ∧
    (serve operation aExample method reqs h).WF := by
  induction reqs generalizing h with
  | nil => exact ⟨fun _ _ hv => hv, hwf⟩
  | cons req rest ih =>
    have hstep := handler_heap_frame operation aExample method req h hwf
    have hrest := ih ((handler_heap operation aExample method req h).2) hstep.2
    exact ⟨fun a v hv => hrest.1 a v (hstep.1 a v hv), hrest.2⟩

/-- C9: handler invocations never mutate the captured operation or example:
a single invocation leaves every pre-existing heap cell (in particular the
example's) intact, and after serving any request sequence the example cell
still holds the value captured at build time, so all requests observe equal
base examples. -/
theorem claim9_no_mutation (operation : Operation) (aExample : Nat)
    (method : String) (h : Heap) (hwf : h.WF) :
    (∀ req a v, h.get a = some v →
      ((handler_heap operation aExample method req h).2).get a = some v) ∧
    (∀ reqs ex, h.get aExample = some ex →
      (serve operation aExample method reqs h).get aExample = some ex) :=
  ⟨fun req a v hv => (handler_heap_frame operation aExample method req h hwf).1 a v hv,
   fun reqs ex hex =>
    (serve_frame operation aExample method reqs h hwf).1 aExample ex hex⟩

/-- A heap holding the captured example `{"message": "test"}` at address 0. -/
def demoHeap : Heap := ⟨[(0, Json.obj [("message", Json.str "test")])], 1⟩

/-- Witness for C9: after two GET requests the example cell is unchanged. -/
theorem claim9_no_mutation_witness :
    (serve demoQueryOp 0 "get" [demoGetReq, demoGetReq] demoHeap).get 0 =
      some (Json.obj [("message", Json.str "test")]) :=
  (claim9_no_mutation demoQueryOp 0 "get" demoHeap
      (by intro p hp; rcases List.mem_singleton.mp hp with rfl; exact Nat.lt_succ_self 0)).2
    [demoGetReq, demoGetReq] (Json.obj [("message", Json.str "test")]) rfl

end Mocky
